import Mathlib

/-!
Hook handlers and lifecycle of the RC3 patch layer.

A shallow embedding of `src/prx/rc3/rc3.c`.

* Output buffers live in a flat byte memory `Mem` (address ↦ byte); a `char*`
  is an address, `p++` is `p + 1`, `*p = c` is `store`.
* The host environment (`Host`) records, in program order, every call that
  leaves the translation unit (`MULTI_LOG`, `cellFsOpendir`,
  `init_memory_allocator`, `SHK_BIND_HOOK`, `_c_game_tick`), the answers the
  filesystem will give to successive probes, and the hook registry.
* The scalar out-parameters of `cellGameBootCheckHook` (`type`, `attributes`,
  `size`) are objects of their own, separate from the byte memory that holds
  `dirName`.
-/

namespace RC3

/-! ## Data model -/

/-- Status returned by the filesystem calls (`CellFsErrno` is an `int`). -/
abbrev CellFsErrno := Int

/-- Modelled from the spec: the record `CellGameContentSize` is declared in the
console header `sysutil/sysutil_gamecontent.h`, which is not among the sources.
The handler assigns three fields of it: a free-space figure, a total size whose
sentinel for "unknown" is negative, and a system-size figure. -/
structure CellGameContentSize where
  hddFreeSizeKB : Int
  sizeKB : Int
  sysSizeKB : Int
deriving DecidableEq, Repr

/-- The three identities declared with `SHK_HOOK` in rc3.c. -/
inductive HookId where
  | cellGameBootCheck
  | cellGameContentPermit
  | pre_game_loop
deriving DecidableEq, Repr

/-- The three replacement functions defined in rc3.c. -/
inductive Handler where
  | cellGameBootCheckHook
  | cellGameContentPermitHook
  | pre_game_loop_hook
deriving DecidableEq, Repr

/-- One call that leaves rc3.c. -/
inductive Event where
  | log (fmt : String)
  | opendir (path : String)
  | init_memory_allocator (area size : Nat)
  | bind (name : HookId) (cb : Handler)
  | tick
deriving DecidableEq, Repr

/-- The environment the handlers run in. -/
structure Host where
  /-- Calls made so far, oldest first. -/
  events : List Event
  /-- Answer (status, descriptor) of the filesystem to the `k`-th probe of a path. -/
  fs : Nat → String → CellFsErrno × Int
  /-- Number of probes made so far. -/
  probes : Nat
  /-- Which identities can be resolved in the loaded image. -/
  image : HookId → Bool
  /-- The registry: active replacement of each identity. -/
  hooks : HookId → Option Handler
  /-- Region handed to the allocator, if it has been initialised. -/
  arena : Option (Nat × Nat)

/-- Byte memory. -/
abbrev Mem := Nat → Nat

/-- The assignment `*p = c`. -/
def store (mem : Mem) (p : Nat) (c : Nat) : Mem :=
  fun a => if a = p then c else mem a

/-- The `n` bytes at `p`, `p + 1`, … -/
def readBytes (mem : Mem) (p : Nat) (n : Nat) : List Nat :=
  (List.range n).map (fun i => mem (p + i))

/-- Characters of a string literal; the terminating NUL that follows them in
the literal's array is the end of the list. -/
def lit (s : String) : List Nat :=
  s.toList.map Char.toNat

/-! ## External collaborators -/

/-- Modelled from the spec: the logging macro `MULTI_LOG(fmt, ...)` is defined in
common.h, which is not among the sources. The spec treats logging as incidental
plumbing; the statement is recorded in the call history by its format string
and touches nothing else. -/
def MULTI_LOG (fmt : String) (h : Host) : Host :=
  { h with events := h.events ++ [Event.log fmt] }

/-- Modelled from the spec: `cellFsOpendir(path, &fd)` belongs to the console
library (cell/cell_fs.h). It is a directory-open probe that returns a status,
one value of which means "not found"; here the filesystem is an oracle that
answers the `k`-th probe with a status and a descriptor, so the answer may
differ from one probe to the next. -/
def cellFsOpendir (path : String) (h : Host) : CellFsErrno × Int × Host :=
  let ans := h.fs h.probes path
  (ans.1, ans.2,
    { h with events := h.events ++ [Event.opendir path], probes := h.probes + 1 })

/-- Modelled from the spec: `_c_game_tick()` is declared in bridging.h, which is
not among the sources. It is the injected per-frame update, taking no argument
and returning nothing; each call is recorded in the call history. -/
def _c_game_tick (h : Host) : Host :=
  { h with events := h.events ++ [Event.tick] }

/-- Modelled from the spec: `init_memory_allocator(area, size)` is defined
outside rc3.c. It sets up the memory arena over the region it is given; the
call is recorded with both arguments. -/
def init_memory_allocator (area size : Nat) (h : Host) : Host :=
  { h with events := h.events ++ [Event.init_memory_allocator area size],
           arena := some (area, size) }

/-- Modelled from the spec: the macro `SHK_BIND_HOOK(name, cb)` of lib/shk.h is
not among the sources. Per the spec, bind installs `cb` as the active handler
of `name`, overwriting any prior one, and has no return value; failing to
resolve `name` in the loaded image is fatal (`none`: control does not come
back). -/
def SHK_BIND_HOOK (name : HookId) (cb : Handler) (h : Host) : Option Host :=
  if h.image name then
    some { h with events := h.events ++ [Event.bind name cb],
                  hooks := fun i => if i = name then some cb else h.hooks i }
  else
    none

/-! ## rc3.c -/

/-- The loop `while (*src) { *dst = *src; dst++; src++; }`; returns the memory
and the advanced `dst`. -/
def copyLoop : List Nat → Mem → Nat → Mem × Nat
  | [], mem, dst => (mem, dst)
  | c :: src, mem, dst =>
    if c = 0 then (mem, dst) else copyLoop src (store mem dst c) (dst + 1)

/-- The objects `cellGameBootCheckHook` writes through its pointers, and the
environment. -/
structure BootCheckState where
  type : Nat
  attributes : Nat
  size : CellGameContentSize
  mem : Mem
  host : Host

/-- Function `cellGameBootCheckHook` (rc3.c:13-42). `CELL_FS_ENOENT` is the
constant of cell/cell_fs.h. -/
def cellGameBootCheckHook (CELL_FS_ENOENT : CellFsErrno) (s : BootCheckState)
    (dirName : Nat) : Int × BootCheckState :=
  let s := { s with host := MULTI_LOG "Type: %p, attr: %p, size: %p, dirName: %p\n" s.host }
  let s := { s with type := 2 }
  let s := { s with attributes := 0 }
  let s := { s with size := { s.size with hddFreeSizeKB := 100000 } }
  let s := { s with size := { s.size with sizeKB := -1 } }
  let s := { s with size := { s.size with sysSizeKB := 4 } }
  let (ebootStat, _fd, host) := cellFsOpendir "/dev_hdd0/game/NPEA00387/" s.host
  let src := if ebootStat = CELL_FS_ENOENT then lit "BCES01503" else lit "NPEA00387"
  let (mem, dirName) := copyLoop src s.mem dirName
  let mem := store mem dirName 0
  let host := MULTI_LOG "Done the thing\n" host
  (0, { s with mem := mem, host := host })

/-- Byte memory and environment, the state `cellGameContentPermitHook` acts on. -/
structure PermitState where
  mem : Mem
  host : Host

/-- Function `cellGameContentPermitHook` (rc3.c:45-80). -/
def cellGameContentPermitHook (CELL_FS_ENOENT : CellFsErrno) (s : PermitState)
    (contentInfoPath usrdirPath : Nat) : Int × PermitState :=
  let host := MULTI_LOG "contentInfoPath: %p, usrdirPath: %p\n" s.host
  let (ebootStat, _fd, host) := cellFsOpendir "/dev_hdd0/game/NPEA00387/" host
  let src := if ebootStat = CELL_FS_ENOENT then lit "/dev_bdvd/PS3_GAME"
             else lit "/dev_hdd0/game/NPEA00387"
  let (mem, contentInfoPath) := copyLoop src s.mem contentInfoPath
  let mem := store mem contentInfoPath 0
  let src := if ebootStat = CELL_FS_ENOENT then lit "/dev_bdvd/PS3_GAME/USRDIR"
             else lit "/dev_hdd0/game/NPEA00387/USRDIR"
  let (mem, usrdirPath) := copyLoop src mem usrdirPath
  let mem := store mem usrdirPath 0
  let host := MULTI_LOG "Done the thing\n" host
  (0, { mem := mem, host := host })

/-- Function `pre_game_loop_hook` (rc3.c:83-85). -/
def pre_game_loop_hook (h : Host) : Host :=
  _c_game_tick h

/-- Function `rc3_init` (rc3.c:88-101). `memory_area` is the address of the
static region and `sizeof_memory_area` its size, both declared outside rc3.c. -/
def rc3_init (memory_area sizeof_memory_area : Nat) (h : Host) : Option Host := do
  let h := MULTI_LOG "Multiplayer initializing.\n" h
  let h := init_memory_allocator memory_area sizeof_memory_area h
  let h ← SHK_BIND_HOOK HookId.cellGameBootCheck Handler.cellGameBootCheckHook h
  let h ← SHK_BIND_HOOK HookId.cellGameContentPermit Handler.cellGameContentPermitHook h
  let h ← SHK_BIND_HOOK HookId.pre_game_loop Handler.pre_game_loop_hook h
  let h := MULTI_LOG "Initialized memory allocator. Binding hooks\n" h
  let h := MULTI_LOG "Bound hooks\n" h
  pure h

/-- Function `rc3_shutdown` (rc3.c:103-105): empty body. -/
def rc3_shutdown (h : Host) : Host :=
  h

/-- The NUL-terminated string at `p`, read within `cap` bytes: the bytes before
the first NUL, or `none` when the first `cap` bytes hold no NUL. -/
def cString (mem : Mem) : Nat → Nat → Option (List Nat)
  | _, 0 => none
  | p, cap + 1 =>
    if mem p = 0 then some [] else (cString mem (p + 1) cap).map (fun cs => mem p :: cs)

/-- Status the probe of the installed-copy directory returns in host `h`. -/
def probeStatus (h : Host) : CellFsErrno :=
  (cellFsOpendir "/dev_hdd0/game/NPEA00387/" h).1

/-- Copy loop followed by the terminating store, as both handlers do it. -/
def strcpy (cs : List Nat) (mem : Mem) (dst : Nat) : Mem :=
  store (copyLoop cs mem dst).1 (copyLoop cs mem dst).2 0

/-- The host after `n` calls of `pre_game_loop_hook`. -/
def frames : Nat → Host → Host
  | 0, h => h
  | n + 1, h => frames n (pre_game_loop_hook h)

/-! ## Sample inputs -/

/-- A sample value of the constant `CELL_FS_ENOENT`. -/
def sampleENOENT : CellFsErrno := -2147418106

/-- A host with no history whose `k`-th probe is answered by `answers k` and
whose image resolves the identities `image` accepts. -/
def hostWith (answers : Nat → CellFsErrno) (image : HookId → Bool) : Host :=
  { events := [], fs := fun k _ => (answers k, 3), probes := 0, image := image,
    hooks := fun _ => none, arena := none }

/-- Installed copy absent: every probe reports `sampleENOENT`. -/
def hostAbsent : Host := hostWith (fun _ => sampleENOENT) (fun _ => true)

/-- Installed copy present: every probe succeeds. -/
def hostPresent : Host := hostWith (fun _ => 0) (fun _ => true)

/-- A filesystem whose answer alternates from one probe to the next. -/
def hostFlaky : Host := hostWith (fun k => if k % 2 = 0 then sampleENOENT else 0) (fun _ => true)

/-- An image in which `pre_game_loop` cannot be resolved. -/
def hostNoLoop : Host :=
  hostWith (fun _ => 0) (fun i => decide (i ≠ HookId.pre_game_loop))

/-- Memory filled with the byte 255. -/
def sampleMem : Mem := fun _ => 255

/-! ## Lemmas on the copy loop -/

theorem store_same (mem : Mem) (p c : Nat) : store mem p c p = c := by
  simp [store]

theorem store_other (mem : Mem) (p c a : Nat) (h : a ≠ p) : store mem p c a = mem a := by
  simp [store, h]

theorem readBytes_zero (mem : Mem) (p : Nat) : readBytes mem p 0 = [] := by
  simp [readBytes]

theorem readBytes_succ (mem : Mem) (p n : Nat) :
    readBytes mem p (n + 1) = mem p :: readBytes mem (p + 1) n := by
  simp only [readBytes, List.range_succ_eq_map, List.map_cons, List.map_map, Nat.add_zero]
  congr 1
  apply List.map_congr_left
  intro i _
  simp only [Function.comp_apply]
  congr 1
  omega

theorem readBytes_length (mem : Mem) (p n : Nat) : (readBytes mem p n).length = n := by
  simp [readBytes]

theorem readBytes_congr (m1 m2 : Mem) (p n : Nat)
    (h : ∀ a, p ≤ a → a < p + n → m1 a = m2 a) :
    readBytes m1 p n = readBytes m2 p n := by
  unfold readBytes
  apply List.map_congr_left
  intro i hi
  have hi2 : i < n := List.mem_range.mp hi
  exact h (p + i) (by omega) (by omega)

/-- The loop writes nowhere outside `[dst, dst + length)`. -/
theorem copyLoop_frame (cs : List Nat) : ∀ (mem : Mem) (dst a : Nat),
    (a < dst ∨ dst + cs.length ≤ a) → (copyLoop cs mem dst).1 a = mem a := by
  induction cs with
  | nil => intro mem dst a _; rfl
  | cons c cs ih =>
    intro mem dst a ha
    unfold copyLoop
    by_cases hc : c = 0
    · simp [hc]
    · simp only [hc, if_false]
      rw [ih (store mem dst c) (dst + 1) a (by simp only [List.length_cons] at ha; omega)]
      apply store_other
      simp only [List.length_cons] at ha
      omega

/-- On a literal without embedded NUL the loop advances `dst` by its length. -/
theorem copyLoop_snd (cs : List Nat) (hz : ∀ c ∈ cs, c ≠ 0) : ∀ (mem : Mem) (dst : Nat),
    (copyLoop cs mem dst).2 = dst + cs.length := by
  induction cs with
  | nil => intro mem dst; rfl
  | cons c cs ih =>
    intro mem dst
    have hc : c ≠ 0 := hz c (List.mem_cons_self c cs)
    unfold copyLoop
    simp only [hc, if_false]
    rw [ih (fun x hx => hz x (List.mem_cons_of_mem c hx))]
    simp only [List.length_cons]
    omega

/-- After the loop and the final `*dst = 0` the destination holds the literal's
characters followed by NUL. -/
theorem strcpy_read (cs : List Nat) (hz : ∀ c ∈ cs, c ≠ 0) : ∀ (mem : Mem) (dst : Nat),
    readBytes (store (copyLoop cs mem dst).1 (copyLoop cs mem dst).2 0) dst (cs.length + 1)
      = cs ++ [0] := by
  induction cs with
  | nil =>
    intro mem dst
    simp [copyLoop, readBytes_succ, readBytes_zero, store]
  | cons c cs ih =>
    intro mem dst
    have hc : c ≠ 0 := hz c (List.mem_cons_self c cs)
    have hz2 : ∀ x ∈ cs, x ≠ 0 := fun x hx => hz x (List.mem_cons_of_mem c hx)
    have hunf : copyLoop (c :: cs) mem dst = copyLoop cs (store mem dst c) (dst + 1) := by
      simp [copyLoop, hc]
    rw [hunf, List.length_cons, readBytes_succ, ih hz2 (store mem dst c) (dst + 1)]
    rw [copyLoop_snd cs hz2, store_other _ _ _ _ (by omega),
      copyLoop_frame cs _ _ _ (Or.inl (Nat.lt_succ_self dst)), store_same]
    rfl

/-- The loop and the final `*dst = 0` change nothing outside
`[dst, dst + length + 1)`. -/
theorem strcpy_frame (cs : List Nat) (hz : ∀ c ∈ cs, c ≠ 0) (mem : Mem) (dst a : Nat)
    (ha : a < dst ∨ dst + cs.length + 1 ≤ a) :
    store (copyLoop cs mem dst).1 (copyLoop cs mem dst).2 0 a = mem a := by
  rw [copyLoop_snd cs hz, store_other _ _ _ _ (by omega)]
  exact copyLoop_frame cs mem dst a (by omega)

/-- Reading a C string back from bytes known to be `cs` followed by NUL. -/
theorem cString_of_readBytes (cs : List Nat) (hz : ∀ c ∈ cs, c ≠ 0) :
    ∀ (mem : Mem) (p cap : Nat), readBytes mem p (cs.length + 1) = cs ++ [0] →
      cs.length < cap → cString mem p cap = some cs := by
  induction cs with
  | nil =>
    intro mem p cap hr hcap
    obtain ⟨k, rfl⟩ : ∃ k, cap = k + 1 := ⟨cap - 1, by simp at hcap; omega⟩
    simp only [List.length_nil, Nat.zero_add, readBytes_succ, readBytes_zero, List.nil_append,
      List.cons.injEq, and_true] at hr
    simp [cString, hr]
  | cons c cs ih =>
    intro mem p cap hr hcap
    obtain ⟨k, rfl⟩ : ∃ k, cap = k + 1 := ⟨cap - 1, by simp at hcap; omega⟩
    have hc : c ≠ 0 := hz c (List.mem_cons_self c cs)
    have hz2 : ∀ x ∈ cs, x ≠ 0 := fun x hx => hz x (List.mem_cons_of_mem c hx)
    rw [List.length_cons, readBytes_succ, List.cons_append, List.cons.injEq] at hr
    have hk : cs.length < k := by simp only [List.length_cons] at hcap; omega
    simp [cString, hr.1, hc, ih hz2 mem (p + 1) k hr.2 hk]

/-! ## The handlers in terms of the copy loop -/

theorem bootCheck_mem (E : CellFsErrno) (s : BootCheckState) (d : Nat) :
    (cellGameBootCheckHook E s d).2.mem
      = strcpy (if probeStatus s.host = E
          then lit "BCES01503" else lit "NPEA00387") s.mem d := rfl

theorem permit_mem (E : CellFsErrno) (s : PermitState) (p1 p2 : Nat) :
    (cellGameContentPermitHook E s p1 p2).2.mem
      = strcpy (if probeStatus s.host = E
          then lit "/dev_bdvd/PS3_GAME/USRDIR" else lit "/dev_hdd0/game/NPEA00387/USRDIR")
          (strcpy (if probeStatus s.host = E
            then lit "/dev_bdvd/PS3_GAME" else lit "/dev_hdd0/game/NPEA00387") s.mem p1) p2 :=
  rfl

theorem strcpy_bytes (cs : List Nat) (hz : ∀ c ∈ cs, c ≠ 0) (mem : Mem) (dst : Nat) :
    readBytes (strcpy cs mem dst) dst (cs.length + 1) = cs ++ [0] :=
  strcpy_read cs hz mem dst

theorem strcpy_outside (cs : List Nat) (hz : ∀ c ∈ cs, c ≠ 0) (mem : Mem) (dst a : Nat)
    (ha : a < dst ∨ dst + cs.length + 1 ≤ a) : strcpy cs mem dst a = mem a :=
  strcpy_frame cs hz mem dst a ha

/-- Two successive copies to non-overlapping destinations: both strings are in
memory afterwards. -/
theorem strcpy_twice (cs1 cs2 : List Nat) (hz1 : ∀ c ∈ cs1, c ≠ 0) (hz2 : ∀ c ∈ cs2, c ≠ 0)
    (mem : Mem) (p1 p2 : Nat)
    (hd : p1 + cs1.length + 1 ≤ p2 ∨ p2 + cs2.length + 1 ≤ p1) :
    readBytes (strcpy cs2 (strcpy cs1 mem p1) p2) p1 (cs1.length + 1) = cs1 ++ [0] ∧
    readBytes (strcpy cs2 (strcpy cs1 mem p1) p2) p2 (cs2.length + 1) = cs2 ++ [0] := by
  refine ⟨?_, strcpy_bytes cs2 hz2 _ p2⟩
  rw [← strcpy_bytes cs1 hz1 mem p1]
  apply readBytes_congr
  intro a h1 h2
  exact strcpy_outside cs2 hz2 _ p2 a (by omega)

theorem strcpy_twice_outside (cs1 cs2 : List Nat) (hz1 : ∀ c ∈ cs1, c ≠ 0)
    (hz2 : ∀ c ∈ cs2, c ≠ 0) (mem : Mem) (p1 p2 a : Nat)
    (h1 : a < p1 ∨ p1 + cs1.length + 1 ≤ a) (h2 : a < p2 ∨ p2 + cs2.length + 1 ≤ a) :
    strcpy cs2 (strcpy cs1 mem p1) p2 a = mem a := by
  rw [strcpy_outside cs2 hz2 _ p2 a h2, strcpy_outside cs1 hz1 mem p1 a h1]

/-- Bytes `cs` followed by NUL: position `cs.length` holds the first NUL. -/
theorem first_nul_of_readBytes (cs : List Nat) (hz : ∀ c ∈ cs, c ≠ 0) (mem : Mem) (p : Nat)
    (hr : readBytes mem p (cs.length + 1) = cs ++ [0]) :
    mem (p + cs.length) = 0 ∧ ∀ i, i < cs.length → mem (p + i) ≠ 0 := by
  have hget : ∀ i, i < cs.length + 1 → (cs ++ [0])[i]? = some (mem (p + i)) := by
    intro i hi
    rw [← hr]
    simp [readBytes, hi]
  constructor
  · have h := hget cs.length (by omega)
    simp at h
    exact h.symm
  · intro i hi
    have h := hget i (by omega)
    rw [List.getElem?_append_left hi, List.getElem?_eq_getElem hi] at h
    rw [← Option.some.inj h]
    exact hz _ (List.getElem_mem hi)

theorem nz_BCES : ∀ c ∈ lit "BCES01503", c ≠ 0 := by decide
theorem nz_NPEA : ∀ c ∈ lit "NPEA00387", c ≠ 0 := by decide
theorem nz_bdvd : ∀ c ∈ lit "/dev_bdvd/PS3_GAME", c ≠ 0 := by decide
theorem nz_hdd0 : ∀ c ∈ lit "/dev_hdd0/game/NPEA00387", c ≠ 0 := by decide
theorem nz_bdvd_usr : ∀ c ∈ lit "/dev_bdvd/PS3_GAME/USRDIR", c ≠ 0 := by decide
theorem nz_hdd0_usr : ∀ c ∈ lit "/dev_hdd0/game/NPEA00387/USRDIR", c ≠ 0 := by decide

theorem len_BCES : (lit "BCES01503").length = 9 := rfl
theorem len_NPEA : (lit "NPEA00387").length = 9 := rfl
theorem len_bdvd : (lit "/dev_bdvd/PS3_GAME").length = 18 := rfl
theorem len_hdd0 : (lit "/dev_hdd0/game/NPEA00387").length = 24 := rfl
theorem len_bdvd_usr : (lit "/dev_bdvd/PS3_GAME/USRDIR").length = 25 := rfl
theorem len_hdd0_usr : (lit "/dev_hdd0/game/NPEA00387/USRDIR").length = 31 := rfl

/-- Two successive copies into non-overlapping buffers of capacities `cap1`,
`cap2`: both C strings can be read back. -/
theorem strcpy_twice_cString (cs1 cs2 : List Nat) (hz1 : ∀ c ∈ cs1, c ≠ 0)
    (hz2 : ∀ c ∈ cs2, c ≠ 0) (mem : Mem) (p1 p2 cap1 cap2 : Nat)
    (h1 : cs1.length < cap1) (h2 : cs2.length < cap2)
    (hd : p1 + cap1 ≤ p2 ∨ p2 + cap2 ≤ p1) :
    cString (strcpy cs2 (strcpy cs1 mem p1) p2) p1 cap1 = some cs1 ∧
    cString (strcpy cs2 (strcpy cs1 mem p1) p2) p2 cap2 = some cs2 := by
  obtain ⟨r1, r2⟩ := strcpy_twice cs1 cs2 hz1 hz2 mem p1 p2 (by omega)
  exact ⟨cString_of_readBytes cs1 hz1 _ p1 cap1 r1 h1,
    cString_of_readBytes cs2 hz2 _ p2 cap2 r2 h2⟩

/-- Memory after `cellGameContentPermitHook` on the removable-medium branch. -/
theorem permit_mem_absent (E : CellFsErrno) (s : PermitState) (p1 p2 : Nat)
    (hst : probeStatus s.host = E) :
    (cellGameContentPermitHook E s p1 p2).2.mem
      = strcpy (lit "/dev_bdvd/PS3_GAME/USRDIR") (strcpy (lit "/dev_bdvd/PS3_GAME") s.mem p1) p2 := by
  rw [permit_mem, if_pos hst, if_pos hst]

/-- Memory after `cellGameContentPermitHook` on the installed-copy branch. -/
theorem permit_mem_present (E : CellFsErrno) (s : PermitState) (p1 p2 : Nat)
    (hst : probeStatus s.host ≠ E) :
    (cellGameContentPermitHook E s p1 p2).2.mem
      = strcpy (lit "/dev_hdd0/game/NPEA00387/USRDIR")
          (strcpy (lit "/dev_hdd0/game/NPEA00387") s.mem p1) p2 := by
  rw [permit_mem, if_neg hst, if_neg hst]

/-- The two strings `cellGameContentPermitHook` leaves in distinct buffers, on
the removable-medium branch. -/
theorem permit_absent (E : CellFsErrno) (s : PermitState) (p1 p2 : Nat)
    (hst : probeStatus s.host = E) (hd : p1 + 25 ≤ p2 ∨ p2 + 32 ≤ p1) :
    cString (cellGameContentPermitHook E s p1 p2).2.mem p1 25
      = some (lit "/dev_bdvd/PS3_GAME") ∧
    cString (cellGameContentPermitHook E s p1 p2).2.mem p2 32
      = some (lit "/dev_bdvd/PS3_GAME/USRDIR") := by
  rw [permit_mem_absent E s p1 p2 hst]
  exact strcpy_twice_cString _ _ nz_bdvd nz_bdvd_usr s.mem p1 p2 25 32
    (by rw [len_bdvd]; omega) (by rw [len_bdvd_usr]; omega) hd

/-- The two strings `cellGameContentPermitHook` leaves in distinct buffers, on
the installed-copy branch. -/
theorem permit_present (E : CellFsErrno) (s : PermitState) (p1 p2 : Nat)
    (hst : probeStatus s.host ≠ E) (hd : p1 + 25 ≤ p2 ∨ p2 + 32 ≤ p1) :
    cString (cellGameContentPermitHook E s p1 p2).2.mem p1 25
      = some (lit "/dev_hdd0/game/NPEA00387") ∧
    cString (cellGameContentPermitHook E s p1 p2).2.mem p2 32
      = some (lit "/dev_hdd0/game/NPEA00387/USRDIR") := by
  rw [permit_mem_present E s p1 p2 hst]
  exact strcpy_twice_cString _ _ nz_hdd0 nz_hdd0_usr s.mem p1 p2 25 32
    (by rw [len_hdd0]; omega) (by rw [len_hdd0_usr]; omega) hd

/-- The string `cellGameBootCheckHook` leaves at `dirName`. -/
theorem bootCheck_dirName (E : CellFsErrno) (s : BootCheckState) (d : Nat) :
    cString (cellGameBootCheckHook E s d).2.mem d 10
      = some (if probeStatus s.host = E then lit "BCES01503" else lit "NPEA00387") := by
  rw [bootCheck_mem]
  by_cases hst : probeStatus s.host = E
  · rw [if_pos hst]
    exact cString_of_readBytes _ nz_BCES _ _ _ (strcpy_bytes _ nz_BCES _ _) (by decide)
  · rw [if_neg hst]
    exact cString_of_readBytes _ nz_NPEA _ _ _ (strcpy_bytes _ nz_NPEA _ _) (by decide)

/-! ## Claims -/

/-- C1: whatever the two output buffers held, if they do not overlap (the
first has room for 25 bytes, the second for 32), `cellGameContentPermitHook`
returns 0 and leaves in them the NUL-terminated strings "/dev_bdvd/PS3_GAME" and
"/dev_bdvd/PS3_GAME/USRDIR" when the probe status is `CELL_FS_ENOENT`, and
"/dev_hdd0/game/NPEA00387" and "/dev_hdd0/game/NPEA00387/USRDIR" for every other
status. -/
theorem cellGameContentPermitHook_paths (CELL_FS_ENOENT : CellFsErrno) (s : PermitState)
    (contentInfoPath usrdirPath : Nat)
    (hd : contentInfoPath + 25 ≤ usrdirPath ∨ usrdirPath + 32 ≤ contentInfoPath) :
    (cellGameContentPermitHook CELL_FS_ENOENT s contentInfoPath usrdirPath).1 = 0 ∧
    (probeStatus s.host = CELL_FS_ENOENT →
      cString (cellGameContentPermitHook CELL_FS_ENOENT s contentInfoPath usrdirPath).2.mem
          contentInfoPath 25 = some (lit "/dev_bdvd/PS3_GAME") ∧
      cString (cellGameContentPermitHook CELL_FS_ENOENT s contentInfoPath usrdirPath).2.mem
          usrdirPath 32 = some (lit "/dev_bdvd/PS3_GAME/USRDIR")) ∧
    (probeStatus s.host ≠ CELL_FS_ENOENT →
      cString (cellGameContentPermitHook CELL_FS_ENOENT s contentInfoPath usrdirPath).2.mem
          contentInfoPath 25 = some (lit "/dev_hdd0/game/NPEA00387") ∧
      cString (cellGameContentPermitHook CELL_FS_ENOENT s contentInfoPath usrdirPath).2.mem
          usrdirPath 32 = some (lit "/dev_hdd0/game/NPEA00387/USRDIR")) :=
  ⟨rfl, fun hst => permit_absent _ s _ _ hst hd, fun hst => permit_present _ s _ _ hst hd⟩

/-- Witness of C1: memory full of 255, buffers at 100 and 200, installed copy
absent. -/
theorem cellGameContentPermitHook_paths_witness :
    ((100 : Nat) + 25 ≤ 200 ∨ (200 : Nat) + 32 ≤ 100) ∧
    probeStatus hostAbsent = sampleENOENT ∧
    (cellGameContentPermitHook sampleENOENT ⟨sampleMem, hostAbsent⟩ 100 200).1 = 0 ∧
    cString (cellGameContentPermitHook sampleENOENT ⟨sampleMem, hostAbsent⟩ 100 200).2.mem
      100 25 = some (lit "/dev_bdvd/PS3_GAME") ∧
    cString (cellGameContentPermitHook sampleENOENT ⟨sampleMem, hostAbsent⟩ 100 200).2.mem
      200 32 = some (lit "/dev_bdvd/PS3_GAME/USRDIR") :=
  ⟨by decide, rfl,
    (cellGameContentPermitHook_paths sampleENOENT ⟨sampleMem, hostAbsent⟩ 100 200
      (by decide)).1,
    (cellGameContentPermitHook_paths sampleENOENT ⟨sampleMem, hostAbsent⟩ 100 200
      (by decide)).2.1 rfl⟩

/-- C2: for every probe status and every prior content of memory, after
`cellGameBootCheckHook` the NUL-terminated string at `dirName` is "BCES01503"
when the status is `CELL_FS_ENOENT` and "NPEA00387" otherwise. -/
theorem cellGameBootCheckHook_dirName (CELL_FS_ENOENT : CellFsErrno) (s : BootCheckState)
    (dirName : Nat) :
    cString (cellGameBootCheckHook CELL_FS_ENOENT s dirName).2.mem dirName 10
      = some (if probeStatus s.host = CELL_FS_ENOENT
          then lit "BCES01503" else lit "NPEA00387") :=
  bootCheck_dirName CELL_FS_ENOENT s dirName

/-- C3: for every probe status and every prior value of the outputs,
`cellGameBootCheckHook` returns 0 and leaves contentType = 2, attributes = 0,
hddFreeSizeKB = 100000 (positive), sizeKB = -1 and sysSizeKB = 4. -/
theorem cellGameBootCheckHook_fields (CELL_FS_ENOENT : CellFsErrno) (s : BootCheckState)
    (dirName : Nat) :
    (cellGameBootCheckHook CELL_FS_ENOENT s dirName).1 = 0 ∧
    (cellGameBootCheckHook CELL_FS_ENOENT s dirName).2.type = 2 ∧
    (cellGameBootCheckHook CELL_FS_ENOENT s dirName).2.attributes = 0 ∧
    (cellGameBootCheckHook CELL_FS_ENOENT s dirName).2.size.hddFreeSizeKB = 100000 ∧
    0 < (cellGameBootCheckHook CELL_FS_ENOENT s dirName).2.size.hddFreeSizeKB ∧
    (cellGameBootCheckHook CELL_FS_ENOENT s dirName).2.size.sizeKB = -1 ∧
    (cellGameBootCheckHook CELL_FS_ENOENT s dirName).2.size.sysSizeKB = 4 :=
  ⟨rfl, rfl, rfl, rfl, (by decide : (0 : Int) < 100000), rfl, rfl⟩

/-- C5: one call of `cellGameContentPermitHook` probes the filesystem exactly
once, whatever the oracle would answer to later probes, and the two strings it
leaves in non-overlapping buffers are the installed-copy pair or the
removable-medium pair, never one of each. -/
theorem cellGameContentPermitHook_single_probe (CELL_FS_ENOENT : CellFsErrno)
    (s : PermitState) (contentInfoPath usrdirPath : Nat)
    (hd : contentInfoPath + 25 ≤ usrdirPath ∨ usrdirPath + 32 ≤ contentInfoPath) :
    (cellGameContentPermitHook CELL_FS_ENOENT s contentInfoPath usrdirPath).2.host.probes
      = s.host.probes + 1 ∧
    (cellGameContentPermitHook CELL_FS_ENOENT s contentInfoPath usrdirPath).2.host.events
      = s.host.events ++ [Event.log "contentInfoPath: %p, usrdirPath: %p\n",
          Event.opendir "/dev_hdd0/game/NPEA00387/", Event.log "Done the thing\n"] ∧
    ((cString (cellGameContentPermitHook CELL_FS_ENOENT s contentInfoPath usrdirPath).2.mem
          contentInfoPath 25 = some (lit "/dev_hdd0/game/NPEA00387") ∧
      cString (cellGameContentPermitHook CELL_FS_ENOENT s contentInfoPath usrdirPath).2.mem
          usrdirPath 32 = some (lit "/dev_hdd0/game/NPEA00387/USRDIR")) ∨
     (cString (cellGameContentPermitHook CELL_FS_ENOENT s contentInfoPath usrdirPath).2.mem
          contentInfoPath 25 = some (lit "/dev_bdvd/PS3_GAME") ∧
      cString (cellGameContentPermitHook CELL_FS_ENOENT s contentInfoPath usrdirPath).2.mem
          usrdirPath 32 = some (lit "/dev_bdvd/PS3_GAME/USRDIR"))) ∧
    ¬ (cString (cellGameContentPermitHook CELL_FS_ENOENT s contentInfoPath usrdirPath).2.mem
          contentInfoPath 25 = some (lit "/dev_hdd0/game/NPEA00387") ∧
      cString (cellGameContentPermitHook CELL_FS_ENOENT s contentInfoPath usrdirPath).2.mem
          usrdirPath 32 = some (lit "/dev_bdvd/PS3_GAME/USRDIR")) ∧
    ¬ (cString (cellGameContentPermitHook CELL_FS_ENOENT s contentInfoPath usrdirPath).2.mem
          contentInfoPath 25 = some (lit "/dev_bdvd/PS3_GAME") ∧
      cString (cellGameContentPermitHook CELL_FS_ENOENT s contentInfoPath usrdirPath).2.mem
          usrdirPath 32 = some (lit "/dev_hdd0/game/NPEA00387/USRDIR")) := by
  refine ⟨rfl, ?_, ?_, ?_, ?_⟩
  · simp [cellGameContentPermitHook, MULTI_LOG, cellFsOpendir]
  · by_cases hst : probeStatus s.host = CELL_FS_ENOENT
    · exact Or.inr (permit_absent _ s _ _ hst hd)
    · exact Or.inl (permit_present _ s _ _ hst hd)
  · by_cases hst : probeStatus s.host = CELL_FS_ENOENT
    · rw [(permit_absent _ s _ _ hst hd).1]
      intro h
      exact absurd h.1 (by decide)
    · rw [(permit_present _ s _ _ hst hd).2]
      intro h
      exact absurd h.2 (by decide)
  · by_cases hst : probeStatus s.host = CELL_FS_ENOENT
    · rw [(permit_absent _ s _ _ hst hd).2]
      intro h
      exact absurd h.2 (by decide)
    · rw [(permit_present _ s _ _ hst hd).1]
      intro h
      exact absurd h.1 (by decide)

/-- Witness of C5: a filesystem whose answers alternate; the first probe says
"not found", the next one would not. -/
theorem cellGameContentPermitHook_single_probe_witness :
    ((100 : Nat) + 25 ≤ 200 ∨ (200 : Nat) + 32 ≤ 100) ∧
    (hostFlaky.fs 0 "/dev_hdd0/game/NPEA00387/").1 ≠ (hostFlaky.fs 1 "/dev_hdd0/game/NPEA00387/").1 ∧
    (cellGameContentPermitHook sampleENOENT ⟨sampleMem, hostFlaky⟩ 100 200).2.host.probes
      = hostFlaky.probes + 1 ∧
    ¬ (cString (cellGameContentPermitHook sampleENOENT ⟨sampleMem, hostFlaky⟩ 100 200).2.mem
          100 25 = some (lit "/dev_bdvd/PS3_GAME") ∧
      cString (cellGameContentPermitHook sampleENOENT ⟨sampleMem, hostFlaky⟩ 100 200).2.mem
          200 32 = some (lit "/dev_hdd0/game/NPEA00387/USRDIR")) :=
  ⟨by decide, by decide,
    (cellGameContentPermitHook_single_probe sampleENOENT ⟨sampleMem, hostFlaky⟩ 100 200
      (by decide)).1,
    (cellGameContentPermitHook_single_probe sampleENOENT ⟨sampleMem, hostFlaky⟩ 100 200
      (by decide)).2.2.2.2⟩

/-- C10: for every probe status, the string `cellGameContentPermitHook` leaves
at `usrdirPath` is the string it leaves at `contentInfoPath` followed by
"/USRDIR" (buffers not overlapping). -/
theorem cellGameContentPermitHook_usrdir_child (CELL_FS_ENOENT : CellFsErrno)
    (s : PermitState) (contentInfoPath usrdirPath : Nat)
    (hd : contentInfoPath + 25 ≤ usrdirPath ∨ usrdirPath + 32 ≤ contentInfoPath) :
    ∃ root : List Nat,
      cString (cellGameContentPermitHook CELL_FS_ENOENT s contentInfoPath usrdirPath).2.mem
        contentInfoPath 25 = some root ∧
      cString (cellGameContentPermitHook CELL_FS_ENOENT s contentInfoPath usrdirPath).2.mem
        usrdirPath 32 = some (root ++ lit "/USRDIR") := by
  by_cases hst : probeStatus s.host = CELL_FS_ENOENT
  · exact ⟨lit "/dev_bdvd/PS3_GAME", permit_absent _ s _ _ hst hd⟩
  · exact ⟨lit "/dev_hdd0/game/NPEA00387", permit_present _ s _ _ hst hd⟩

/-- Witness of C10: installed copy present, buffers at 300 and 100. -/
theorem cellGameContentPermitHook_usrdir_child_witness :
    ((300 : Nat) + 25 ≤ 100 ∨ (100 : Nat) + 32 ≤ 300) ∧
    ∃ root : List Nat,
      cString (cellGameContentPermitHook sampleENOENT ⟨sampleMem, hostPresent⟩ 300 100).2.mem
        300 25 = some root ∧
      cString (cellGameContentPermitHook sampleENOENT ⟨sampleMem, hostPresent⟩ 300 100).2.mem
        100 32 = some (root ++ lit "/USRDIR") :=
  ⟨by decide,
    cellGameContentPermitHook_usrdir_child sampleENOENT ⟨sampleMem, hostPresent⟩ 300 100
      (by decide)⟩

/-- C4: given the same probe status `st`, both handlers pick the same medium:
for `st = CELL_FS_ENOENT` handler A leaves "BCES01503" and handler B the
"/dev_bdvd" pair, for every other `st` handler A leaves "NPEA00387" and handler B
the "/dev_hdd0" pair; and two runs of a handler from the same memory whose
statuses both differ from `CELL_FS_ENOENT` produce the same outputs. -/
theorem hooks_same_medium (CELL_FS_ENOENT st : CellFsErrno) (a : BootCheckState)
    (b : PermitState) (dirName contentInfoPath usrdirPath : Nat)
    (ha : probeStatus a.host = st) (hb : probeStatus b.host = st)
    (hd : contentInfoPath + 25 ≤ usrdirPath ∨ usrdirPath + 32 ≤ contentInfoPath) :
    (st = CELL_FS_ENOENT →
      cString (cellGameBootCheckHook CELL_FS_ENOENT a dirName).2.mem dirName 10
        = some (lit "BCES01503") ∧
      cString (cellGameContentPermitHook CELL_FS_ENOENT b contentInfoPath usrdirPath).2.mem
        contentInfoPath 25 = some (lit "/dev_bdvd/PS3_GAME") ∧
      cString (cellGameContentPermitHook CELL_FS_ENOENT b contentInfoPath usrdirPath).2.mem
        usrdirPath 32 = some (lit "/dev_bdvd/PS3_GAME/USRDIR")) ∧
    (st ≠ CELL_FS_ENOENT →
      cString (cellGameBootCheckHook CELL_FS_ENOENT a dirName).2.mem dirName 10
        = some (lit "NPEA00387") ∧
      cString (cellGameContentPermitHook CELL_FS_ENOENT b contentInfoPath usrdirPath).2.mem
        contentInfoPath 25 = some (lit "/dev_hdd0/game/NPEA00387") ∧
      cString (cellGameContentPermitHook CELL_FS_ENOENT b contentInfoPath usrdirPath).2.mem
        usrdirPath 32 = some (lit "/dev_hdd0/game/NPEA00387/USRDIR")) ∧
    (st ≠ CELL_FS_ENOENT →
      (∀ a2 : BootCheckState, a2.mem = a.mem → probeStatus a2.host ≠ CELL_FS_ENOENT →
        (cellGameBootCheckHook CELL_FS_ENOENT a2 dirName).1
          = (cellGameBootCheckHook CELL_FS_ENOENT a dirName).1 ∧
        (cellGameBootCheckHook CELL_FS_ENOENT a2 dirName).2.type
          = (cellGameBootCheckHook CELL_FS_ENOENT a dirName).2.type ∧
        (cellGameBootCheckHook CELL_FS_ENOENT a2 dirName).2.attributes
          = (cellGameBootCheckHook CELL_FS_ENOENT a dirName).2.attributes ∧
        (cellGameBootCheckHook CELL_FS_ENOENT a2 dirName).2.size
          = (cellGameBootCheckHook CELL_FS_ENOENT a dirName).2.size ∧
        (cellGameBootCheckHook CELL_FS_ENOENT a2 dirName).2.mem
          = (cellGameBootCheckHook CELL_FS_ENOENT a dirName).2.mem) ∧
      (∀ b2 : PermitState, b2.mem = b.mem → probeStatus b2.host ≠ CELL_FS_ENOENT →
        (cellGameContentPermitHook CELL_FS_ENOENT b2 contentInfoPath usrdirPath).1
          = (cellGameContentPermitHook CELL_FS_ENOENT b contentInfoPath usrdirPath).1 ∧
        (cellGameContentPermitHook CELL_FS_ENOENT b2 contentInfoPath usrdirPath).2.mem
          = (cellGameContentPermitHook CELL_FS_ENOENT b contentInfoPath usrdirPath).2.mem)) := by
  refine ⟨?_, ?_, ?_⟩
  · intro hst
    have h := bootCheck_dirName CELL_FS_ENOENT a dirName
    rw [if_pos (ha.trans hst)] at h
    exact ⟨h, permit_absent _ b _ _ (hb.trans hst) hd⟩
  · intro hst
    have h := bootCheck_dirName CELL_FS_ENOENT a dirName
    rw [if_neg (fun e => hst (ha.symm.trans e))] at h
    exact ⟨h, permit_present _ b _ _ (fun e => hst (hb.symm.trans e)) hd⟩
  · intro hst
    have hna : probeStatus a.host ≠ CELL_FS_ENOENT := fun e => hst (ha.symm.trans e)
    have hnb : probeStatus b.host ≠ CELL_FS_ENOENT := fun e => hst (hb.symm.trans e)
    constructor
    · intro a2 hm h2
      refine ⟨rfl, rfl, rfl, rfl, ?_⟩
      rw [bootCheck_mem, bootCheck_mem, if_neg h2, if_neg hna, hm]
    · intro b2 hm h2
      refine ⟨rfl, ?_⟩
      rw [permit_mem_present _ b2 _ _ h2, permit_mem_present _ b _ _ hnb, hm]

/-- Witness of C4: both handlers see "not found". -/
theorem hooks_same_medium_witness :
    (probeStatus hostAbsent = sampleENOENT ∧
      ((100 : Nat) + 25 ≤ 200 ∨ (200 : Nat) + 32 ≤ 100)) ∧
    cString (cellGameBootCheckHook sampleENOENT ⟨7, 7, ⟨0, 0, 0⟩, sampleMem, hostAbsent⟩ 50).2.mem
      50 10 = some (lit "BCES01503") ∧
    cString (cellGameContentPermitHook sampleENOENT ⟨sampleMem, hostAbsent⟩ 100 200).2.mem
      100 25 = some (lit "/dev_bdvd/PS3_GAME") ∧
    cString (cellGameContentPermitHook sampleENOENT ⟨sampleMem, hostAbsent⟩ 100 200).2.mem
      200 32 = some (lit "/dev_bdvd/PS3_GAME/USRDIR") :=
  ⟨⟨rfl, by decide⟩,
    (hooks_same_medium sampleENOENT sampleENOENT ⟨7, 7, ⟨0, 0, 0⟩, sampleMem, hostAbsent⟩
      ⟨sampleMem, hostAbsent⟩ 50 100 200 rfl rfl (by decide)).1 rfl⟩

/-- C9: the handlers write fixed-length runs of bytes and nothing else.
`cellGameBootCheckHook` sets the 10 bytes at `dirName` (9 characters, then the
first NUL) and leaves every other byte as it was. `cellGameContentPermitHook`
sets 19 bytes at `contentInfoPath` and 26 at `usrdirPath` on the
removable-medium branch, 25 and 32 on the installed-copy branch, each run ending
in its first NUL, and leaves every byte outside the two runs as it was; so with
capacities of at least 10, 25 and 32 bytes no byte outside the buffers changes. -/
theorem hooks_write_footprint (CELL_FS_ENOENT : CellFsErrno) (a : BootCheckState)
    (b : PermitState) (dirName contentInfoPath usrdirPath : Nat)
    (hd : contentInfoPath + 25 ≤ usrdirPath ∨ usrdirPath + 32 ≤ contentInfoPath) :
    (readBytes (cellGameBootCheckHook CELL_FS_ENOENT a dirName).2.mem dirName 10
        = (if probeStatus a.host = CELL_FS_ENOENT then lit "BCES01503" else lit "NPEA00387")
            ++ [0] ∧
      (∀ x, (x < dirName ∨ dirName + 10 ≤ x) →
        (cellGameBootCheckHook CELL_FS_ENOENT a dirName).2.mem x = a.mem x) ∧
      (cellGameBootCheckHook CELL_FS_ENOENT a dirName).2.mem (dirName + 9) = 0 ∧
      (∀ i, i < 9 → (cellGameBootCheckHook CELL_FS_ENOENT a dirName).2.mem (dirName + i) ≠ 0) ∧
      (∀ cap x, 10 ≤ cap → (x < dirName ∨ dirName + cap ≤ x) →
        (cellGameBootCheckHook CELL_FS_ENOENT a dirName).2.mem x = a.mem x)) ∧
    (probeStatus b.host = CELL_FS_ENOENT →
      readBytes (cellGameContentPermitHook CELL_FS_ENOENT b contentInfoPath usrdirPath).2.mem
        contentInfoPath 19 = lit "/dev_bdvd/PS3_GAME" ++ [0] ∧
      readBytes (cellGameContentPermitHook CELL_FS_ENOENT b contentInfoPath usrdirPath).2.mem
        usrdirPath 26 = lit "/dev_bdvd/PS3_GAME/USRDIR" ++ [0] ∧
      (∀ x, (x < contentInfoPath ∨ contentInfoPath + 19 ≤ x) →
        (x < usrdirPath ∨ usrdirPath + 26 ≤ x) →
        (cellGameContentPermitHook CELL_FS_ENOENT b contentInfoPath usrdirPath).2.mem x
          = b.mem x) ∧
      (cellGameContentPermitHook CELL_FS_ENOENT b contentInfoPath usrdirPath).2.mem
        (contentInfoPath + 18) = 0 ∧
      (∀ i, i < 18 →
        (cellGameContentPermitHook CELL_FS_ENOENT b contentInfoPath usrdirPath).2.mem
          (contentInfoPath + i) ≠ 0) ∧
      (cellGameContentPermitHook CELL_FS_ENOENT b contentInfoPath usrdirPath).2.mem
        (usrdirPath + 25) = 0 ∧
      (∀ i, i < 25 →
        (cellGameContentPermitHook CELL_FS_ENOENT b contentInfoPath usrdirPath).2.mem
          (usrdirPath + i) ≠ 0)) ∧
    (probeStatus b.host ≠ CELL_FS_ENOENT →
      readBytes (cellGameContentPermitHook CELL_FS_ENOENT b contentInfoPath usrdirPath).2.mem
        contentInfoPath 25 = lit "/dev_hdd0/game/NPEA00387" ++ [0] ∧
      readBytes (cellGameContentPermitHook CELL_FS_ENOENT b contentInfoPath usrdirPath).2.mem
        usrdirPath 32 = lit "/dev_hdd0/game/NPEA00387/USRDIR" ++ [0] ∧
      (∀ x, (x < contentInfoPath ∨ contentInfoPath + 25 ≤ x) →
        (x < usrdirPath ∨ usrdirPath + 32 ≤ x) →
        (cellGameContentPermitHook CELL_FS_ENOENT b contentInfoPath usrdirPath).2.mem x
          = b.mem x) ∧
      (cellGameContentPermitHook CELL_FS_ENOENT b contentInfoPath usrdirPath).2.mem
        (contentInfoPath + 24) = 0 ∧
      (∀ i, i < 24 →
        (cellGameContentPermitHook CELL_FS_ENOENT b contentInfoPath usrdirPath).2.mem
          (contentInfoPath + i) ≠ 0) ∧
      (cellGameContentPermitHook CELL_FS_ENOENT b contentInfoPath usrdirPath).2.mem
        (usrdirPath + 31) = 0 ∧
      (∀ i, i < 31 →
        (cellGameContentPermitHook CELL_FS_ENOENT b contentInfoPath usrdirPath).2.mem
          (usrdirPath + i) ≠ 0)) ∧
    (∀ cap1 cap2 x, 25 ≤ cap1 → 32 ≤ cap2 →
      (x < contentInfoPath ∨ contentInfoPath + cap1 ≤ x) →
      (x < usrdirPath ∨ usrdirPath + cap2 ≤ x) →
      (cellGameContentPermitHook CELL_FS_ENOENT b contentInfoPath usrdirPath).2.mem x
        = b.mem x) := by
  refine ⟨?_, ?_, ?_, ?_⟩
  · rw [bootCheck_mem]
    by_cases hst : probeStatus a.host = CELL_FS_ENOENT
    · simp only [if_pos hst]
      have hr := strcpy_bytes _ nz_BCES a.mem dirName
      have hn := first_nul_of_readBytes _ nz_BCES _ dirName hr
      rw [len_BCES] at hr hn
      exact ⟨hr, fun x hx => strcpy_outside _ nz_BCES _ _ _ (by rw [len_BCES]; omega),
        hn.1, hn.2, fun cap x hc hx => strcpy_outside _ nz_BCES _ _ _ (by rw [len_BCES]; omega)⟩
    · simp only [if_neg hst]
      have hr := strcpy_bytes _ nz_NPEA a.mem dirName
      have hn := first_nul_of_readBytes _ nz_NPEA _ dirName hr
      rw [len_NPEA] at hr hn
      exact ⟨hr, fun x hx => strcpy_outside _ nz_NPEA _ _ _ (by rw [len_NPEA]; omega),
        hn.1, hn.2, fun cap x hc hx => strcpy_outside _ nz_NPEA _ _ _ (by rw [len_NPEA]; omega)⟩
  · intro hst
    rw [permit_mem_absent _ b _ _ hst]
    obtain ⟨r1, r2⟩ := strcpy_twice _ _ nz_bdvd nz_bdvd_usr b.mem contentInfoPath usrdirPath
      (by rw [len_bdvd, len_bdvd_usr]; omega)
    have n1 := first_nul_of_readBytes _ nz_bdvd _ contentInfoPath r1
    have n2 := first_nul_of_readBytes _ nz_bdvd_usr _ usrdirPath r2
    rw [len_bdvd] at r1 n1
    rw [len_bdvd_usr] at r2 n2
    exact ⟨r1, r2, fun x h1 h2 => strcpy_twice_outside _ _ nz_bdvd nz_bdvd_usr _ _ _ _
        (by rw [len_bdvd]; omega) (by rw [len_bdvd_usr]; omega), n1.1, n1.2, n2.1, n2.2⟩
  · intro hst
    rw [permit_mem_present _ b _ _ hst]
    obtain ⟨r1, r2⟩ := strcpy_twice _ _ nz_hdd0 nz_hdd0_usr b.mem contentInfoPath usrdirPath
      (by rw [len_hdd0, len_hdd0_usr]; omega)
    have n1 := first_nul_of_readBytes _ nz_hdd0 _ contentInfoPath r1
    have n2 := first_nul_of_readBytes _ nz_hdd0_usr _ usrdirPath r2
    rw [len_hdd0] at r1 n1
    rw [len_hdd0_usr] at r2 n2
    exact ⟨r1, r2, fun x h1 h2 => strcpy_twice_outside _ _ nz_hdd0 nz_hdd0_usr _ _ _ _
        (by rw [len_hdd0]; omega) (by rw [len_hdd0_usr]; omega), n1.1, n1.2, n2.1, n2.2⟩
  · intro cap1 cap2 x h1 h2 hx1 hx2
    by_cases hst : probeStatus b.host = CELL_FS_ENOENT
    · rw [permit_mem_absent _ b _ _ hst]
      exact strcpy_twice_outside _ _ nz_bdvd nz_bdvd_usr _ _ _ _
        (by rw [len_bdvd]; omega) (by rw [len_bdvd_usr]; omega)
    · rw [permit_mem_present _ b _ _ hst]
      exact strcpy_twice_outside _ _ nz_hdd0 nz_hdd0_usr _ _ _ _
        (by rw [len_hdd0]; omega) (by rw [len_hdd0_usr]; omega)

/-- Witness of C9: memory full of 255; the NUL of each run replaces a 255 and
the byte after the run is still 255. -/
theorem hooks_write_footprint_witness :
    ((100 : Nat) + 25 ≤ 200 ∨ (200 : Nat) + 32 ≤ 100) ∧
    (cellGameBootCheckHook sampleENOENT ⟨7, 7, ⟨0, 0, 0⟩, sampleMem, hostPresent⟩ 50).2.mem
      (50 + 9) = 0 ∧
    (cellGameBootCheckHook sampleENOENT ⟨7, 7, ⟨0, 0, 0⟩, sampleMem, hostPresent⟩ 50).2.mem 60
      = sampleMem 60 ∧
    readBytes (cellGameContentPermitHook sampleENOENT ⟨sampleMem, hostPresent⟩ 100 200).2.mem
      100 25 = lit "/dev_hdd0/game/NPEA00387" ++ [0] ∧
    (cellGameContentPermitHook sampleENOENT ⟨sampleMem, hostPresent⟩ 100 200).2.mem 125
      = sampleMem 125 :=
  ⟨by decide,
    (hooks_write_footprint sampleENOENT ⟨7, 7, ⟨0, 0, 0⟩, sampleMem, hostPresent⟩
      ⟨sampleMem, hostPresent⟩ 50 100 200 (by decide)).1.2.2.1,
    (hooks_write_footprint sampleENOENT ⟨7, 7, ⟨0, 0, 0⟩, sampleMem, hostPresent⟩
      ⟨sampleMem, hostPresent⟩ 50 100 200 (by decide)).1.2.1 60 (by decide),
    ((hooks_write_footprint sampleENOENT ⟨7, 7, ⟨0, 0, 0⟩, sampleMem, hostPresent⟩
      ⟨sampleMem, hostPresent⟩ 50 100 200 (by decide)).2.2.1 (by decide)).1,
    ((hooks_write_footprint sampleENOENT ⟨7, 7, ⟨0, 0, 0⟩, sampleMem, hostPresent⟩
      ⟨sampleMem, hostPresent⟩ 50 100 200 (by decide)).2.2.1 (by decide)).2.2.1 125
        (by decide) (by decide)⟩

/-- C6: from any registry state, when the three identities resolve,
`rc3_init` completes and has performed, in this order: the allocator
initialisation over `memory_area` with its full size, then the three binds
cellGameBootCheck, cellGameContentPermit, pre_game_loop to their handlers, and
no other bind. -/
theorem rc3_init_sequence (memory_area sizeof_memory_area : Nat) (h : Host)
    (h1 : h.image HookId.cellGameBootCheck = true)
    (h2 : h.image HookId.cellGameContentPermit = true)
    (h3 : h.image HookId.pre_game_loop = true) :
    ∃ r : Host, rc3_init memory_area sizeof_memory_area h = some r ∧
      r.events = h.events ++
        [Event.log "Multiplayer initializing.\n",
         Event.init_memory_allocator memory_area sizeof_memory_area,
         Event.bind HookId.cellGameBootCheck Handler.cellGameBootCheckHook,
         Event.bind HookId.cellGameContentPermit Handler.cellGameContentPermitHook,
         Event.bind HookId.pre_game_loop Handler.pre_game_loop_hook,
         Event.log "Initialized memory allocator. Binding hooks\n",
         Event.log "Bound hooks\n"] ∧
      r.arena = some (memory_area, sizeof_memory_area) ∧
      r.hooks HookId.cellGameBootCheck = some Handler.cellGameBootCheckHook ∧
      r.hooks HookId.cellGameContentPermit = some Handler.cellGameContentPermitHook ∧
      r.hooks HookId.pre_game_loop = some Handler.pre_game_loop_hook := by
  simp [rc3_init, SHK_BIND_HOOK, MULTI_LOG, init_memory_allocator, h1, h2, h3]

/-- Witness of C6: a registry that starts with a stale binding. -/
theorem rc3_init_sequence_witness :
    ∃ r : Host,
      rc3_init 4096 65536
        { hostPresent with hooks := fun _ => some Handler.pre_game_loop_hook } = some r ∧
      r.events =
        [Event.log "Multiplayer initializing.\n",
         Event.init_memory_allocator 4096 65536,
         Event.bind HookId.cellGameBootCheck Handler.cellGameBootCheckHook,
         Event.bind HookId.cellGameContentPermit Handler.cellGameContentPermitHook,
         Event.bind HookId.pre_game_loop Handler.pre_game_loop_hook,
         Event.log "Initialized memory allocator. Binding hooks\n",
         Event.log "Bound hooks\n"] ∧
      r.hooks HookId.cellGameBootCheck = some Handler.cellGameBootCheckHook := by
  obtain ⟨r, e, ev, _, hk, _⟩ := rc3_init_sequence 4096 65536
    { hostPresent with hooks := fun _ => some Handler.pre_game_loop_hook } rfl rfl rfl
  exact ⟨r, e, ev, hk⟩

/-- C7: one call of `pre_game_loop_hook` is one call of `_c_game_tick` and
nothing else, so `n` calls cause exactly `n` ticks. -/
theorem pre_game_loop_hook_ticks (h : Host) (n : Nat) :
    pre_game_loop_hook h = _c_game_tick h ∧
    (pre_game_loop_hook h).events = h.events ++ [Event.tick] ∧
    (pre_game_loop_hook h).fs = h.fs ∧
    (pre_game_loop_hook h).probes = h.probes ∧
    (pre_game_loop_hook h).image = h.image ∧
    (pre_game_loop_hook h).hooks = h.hooks ∧
    (pre_game_loop_hook h).arena = h.arena ∧
    (frames n h).events = h.events ++ List.replicate n Event.tick ∧
    (frames n h).events.count Event.tick = h.events.count Event.tick + n := by
  have hev : ∀ (n : Nat) (h : Host),
      (frames n h).events = h.events ++ List.replicate n Event.tick := by
    intro n
    induction n with
    | zero => intro h; simp [frames]
    | succ n ih =>
      intro h
      rw [frames, ih, List.replicate_succ]
      simp [pre_game_loop_hook, _c_game_tick]
  refine ⟨rfl, rfl, rfl, rfl, rfl, rfl, rfl, hev n h, ?_⟩
  rw [hev n h, List.count_append, List.count_replicate_self]

/-- C8: when one of the three identities cannot be resolved, `rc3_init` does
not complete; and whenever it completes, all three bindings are installed. -/
theorem rc3_init_bind_failure (memory_area sizeof_memory_area : Nat) (h : Host) :
    ((h.image HookId.cellGameBootCheck = false ∨
        h.image HookId.cellGameContentPermit = false ∨
        h.image HookId.pre_game_loop = false) →
      rc3_init memory_area sizeof_memory_area h = none) ∧
    (∀ r : Host, rc3_init memory_area sizeof_memory_area h = some r →
      r.hooks HookId.cellGameBootCheck = some Handler.cellGameBootCheckHook ∧
      r.hooks HookId.cellGameContentPermit = some Handler.cellGameContentPermitHook ∧
      r.hooks HookId.pre_game_loop = some Handler.pre_game_loop_hook) := by
  constructor
  · intro hf
    rcases hf with hf | hf | hf
    · simp [rc3_init, SHK_BIND_HOOK, MULTI_LOG, init_memory_allocator, hf]
    · simp [rc3_init, SHK_BIND_HOOK, MULTI_LOG, init_memory_allocator, hf]
    · simp [rc3_init, SHK_BIND_HOOK, MULTI_LOG, init_memory_allocator, hf]
  · intro r he
    cases h1 : h.image HookId.cellGameBootCheck <;>
      cases h2 : h.image HookId.cellGameContentPermit <;>
      cases h3 : h.image HookId.pre_game_loop <;>
      simp [rc3_init, SHK_BIND_HOOK, MULTI_LOG, init_memory_allocator, h1, h2, h3] at he
    subst he
    simp

/-- Witness of C8: an image without `pre_game_loop`. -/
theorem rc3_init_bind_failure_witness :
    hostNoLoop.image HookId.pre_game_loop = false ∧
    rc3_init 4096 65536 hostNoLoop = none :=
  ⟨rfl, (rc3_init_bind_failure 4096 65536 hostNoLoop).1 (Or.inr (Or.inr rfl))⟩

end RC3
